import Mathlib

/-!
Shallow embedding of `src/scvi/models/scanvi.py` (class `SCANVI`):
construction-time label partition, default training-schedule heuristic,
two-phase `train` orchestration with partial weight transplant, and the
`predict` routine in hard and soft mode.
-/

namespace Scanvi

/-- Round half to even on an exact rational, the rounding performed by
Python's built-in `round` (applied here to the exact value of the
expression rather than to its floating-point approximation). -/
def roundHalfEven (q : ℚ) : ℤ :=
  let f := ⌊q⌋
  if q - f < 1/2 then f
  else if (1 : ℚ)/2 < q - f then f + 1
  else if f % 2 = 0 then f else f + 1

/-- Default unsupervised epoch count, from `SCANVI.train` lines 168-171:
`n_epochs_unsupervised = np.min([round((20000 / self.adata.shape[0]) * 400), 400])`
when no override is passed.  Division by an empty observation set
(`n_obs = 0`) raises in Python (`ZeroDivisionError`), modelled as `none`. -/
def unsupervised_epochs (n_obs : ℕ) (override : Option ℤ) : Option ℤ :=
  match override with
  | some e => some e
  | none =>
    if n_obs = 0 then none
    else some (min (roundHalfEven ((20000 / (n_obs : ℚ)) * 400)) 400)

/-- Default semi-supervised epoch count, from `SCANVI.train` lines 172-175:
`n_epochs_semisupervised = int(np.min([10, np.max([2, round(n_epochs_unsupervised / 3.0)])]))`
when no override is passed. -/
def semisupervised_epochs (n_epochs_unsupervised : ℤ) (override : Option ℤ) : ℤ :=
  match override with
  | some e => e
  | none => min 10 (max 2 (roundHalfEven ((n_epochs_unsupervised : ℚ) / 3)))

/-- From `SCANVI.__init__` line 128:
`self._unlabeled_indices = np.argwhere(labels == self.unlabeled_category).ravel()` —
indices whose raw label is value-equal to the unlabeled sentinel. -/
def unlabeled_indices {α : Type} [DecidableEq α] (labels : List α) (c : α) : List ℕ :=
  (List.range labels.length).filter (fun i => decide (labels[i]? = some c))

/-- From `SCANVI.__init__` line 129:
`self._labeled_indices = np.argwhere(labels != self.unlabeled_category).ravel()` —
indices whose raw label is value-unequal to the unlabeled sentinel. -/
def labeled_indices {α : Type} [DecidableEq α] (labels : List α) (c : α) : List ℕ :=
  (List.range labels.length).filter (fun i => decide (¬ labels[i]? = some c))

/-- A model parameter: a tensor, abstracted as its shape and its (flattened)
numeric contents. -/
structure Param where
  shape : List ℕ
  data : List ℚ
deriving DecidableEq, Repr

/-- A PyTorch state dict: an ordered association of parameter names to
parameter tensors. -/
def StateDict : Type := List (String × Param)

instance : DecidableEq StateDict := by
  unfold StateDict
  infer_instance

/-- Modelled from the spec: `torch.nn.Module.load_state_dict(source, strict=False)`
(the torch collaborator is not part of this repository).  Per the spec's
weight-transplant contract, parameters present in both models by name and
shape are copied from the source, while parameters unique to the target —
and any name whose shapes disagree — keep their current values; no
mismatch is an error. -/
def load_state_dict (tgt src : StateDict) : StateDict :=
  tgt.map fun np =>
    match List.lookup np.1 src with
    | some q => if q.shape = np.2.shape then (np.1, q) else np
    | none => np

/-- The scvi wrapper around a pretrained `SCVI` model, as seen by
`SCANVI.__init__`: its `is_trained` flag and its inner `model` parameters. -/
structure SCVIModel where
  is_trained : Bool
  model : StateDict

/-- The state of a constructed `SCANVI` object: the base (unsupervised) VAE
parameters, the semi-supervised SCANVAE parameters, the two training flags,
the label partition and the code-to-label mapping. -/
structure SCANVIInstance where
  base : StateDict
  semi : StateDict
  is_trained_base : Bool
  is_trained : Bool
  labeled : List ℕ
  unlabeled : List ℕ
  label_mapping : List String

/-- From `SCANVI.__init__` (scanvi.py lines 70-143): validate the pretrained
model if given (raising `ValueError` when its `is_trained` flag is false,
before anything else is built), pick the base parameters, build the fresh
SCANVAE, and compute the label partition and code-to-label mapping.
`fresh_base`/`fresh_semi` stand for the freshly initialised `VAE`/`SCANVAE`
parameters; `labels` is the raw label column read from the data registry. -/
def SCANVI_init (labels : List String) (unlabeled_category : String)
    (pretrained_model : Option SCVIModel) (fresh_base fresh_semi : StateDict)
    (mapping : List String) : Except String SCANVIInstance :=
  match pretrained_model with
  | some pm =>
    if pm.is_trained = false then
      .error "pretrained model has not been trained"
    else
      .ok { base := pm.model
            semi := fresh_semi
            is_trained_base := true
            is_trained := false
            labeled := labeled_indices labels unlabeled_category
            unlabeled := unlabeled_indices labels unlabeled_category
            label_mapping := mapping }
  | none =>
    .ok { base := fresh_base
          semi := fresh_semi
          is_trained_base := false
          is_trained := false
          labeled := labeled_indices labels unlabeled_category
          unlabeled := unlabeled_indices labels unlabeled_category
          label_mapping := mapping }

/-- What one call to `SCANVI.train` does, together with an account of the
side effects the claims talk about: whether the unsupervised trainer was
constructed and run (phase 1), the semi-supervised parameters right after
the weight transplant of line 194, and whether phase 2 ran. -/
structure TrainResult where
  state : SCANVIInstance
  unsup_trainer_ran : Bool
  semi_after_transplant : StateDict
  phase2_ran : Bool

/-- From `SCANVI.train` (scanvi.py lines 153-208), with the two external
optimisation loops abstracted as parameter-transforming oracles
`unsup_fit` (what `UnsupervisedTrainer.train` does to the base VAE) and
`semi_fit` (what `SemiSupervisedTrainer.train` does to the SCANVAE):
phase 1 runs only when `_is_trained_base is not True`; the transplant
`self.model.load_state_dict(self._base_model.state_dict(), strict=False)`
and phase 2 run unconditionally. -/
def SCANVI_train (unsup_fit semi_fit : StateDict → StateDict)
    (s : SCANVIInstance) : TrainResult :=
  let phase1 : Bool := !s.is_trained_base
  let base1 := if s.is_trained_base then s.base else unsup_fit s.base
  let transplanted := load_state_dict s.semi base1
  let semi2 := semi_fit transplanted
  { state := { s with
      base := base1
      is_trained_base := true
      semi := semi2
      is_trained := true }
    unsup_trainer_ran := phase1
    semi_after_transplant := transplanted
    phase2_ran := true }

/-- From `SCANVI.predict` hard mode (scanvi.py lines 232-237): look each
predicted integer code up in `self._code_to_label` (the inverse table of
the mapping, built on line 127 as `{i: l for i, l in enumerate(mapping)}`)
and collect the raw labels in input order; a code outside the table raises
`KeyError`, modelled as `none`. -/
def predict_hard (mapping : List String) : List ℕ → Option (List String)
  | [] => some []
  | p :: ps =>
    match mapping[p]?, predict_hard mapping ps with
    | some l, some rest => some (l :: rest)
    | _, _ => none

/-- A pandas `DataFrame` as assembled by soft-mode `predict`: column names,
row index, and the 2-D data. -/
structure DataFrame where
  columns : List String
  index : List String
  data : List (List ℚ)
deriving DecidableEq, Repr

/-- Modelled from the spec: the pandas `DataFrame` constructor (pandas is
not part of this repository).
`pd.DataFrame(data, columns=columns, index=index)` for 2-D `data` requires
the index length to equal the number of rows and the column count to equal
every row's width, raising `ValueError` (modelled as `none`) otherwise. -/
def mk_dataframe (data : List (List ℚ)) (columns index : List String) :
    Option DataFrame :=
  if data.length = index.length ∧ ∀ r ∈ data, r.length = columns.length then
    some { columns := columns, index := index, data := data }
  else none

/-- From `SCANVI.predict` soft mode (scanvi.py lines 227-242): resolve the
queried indices (all observations when `indices is None`), obtain one
probability row per queried observation from the posterior oracle `probs`
(the posterior collaborator is not part of this repository and is modelled
from the spec as emitting rows in input order), then build
`pd.DataFrame(pred, columns=self._label_mapping, index=adata.obs_names)` —
note the index is the FULL observation-name list of the validated AnnData,
not the queried subset. -/
def predict_soft (mapping obs_names : List String) (probs : ℕ → List ℚ)
    (indices : Option (List ℕ)) : Option DataFrame :=
  let queried := match indices with
    | some l => l
    | none => List.range obs_names.length
  mk_dataframe (queried.map probs) mapping obs_names

/-! ### Helper lemmas -/

theorem roundHalfEven_nonneg (q : ℚ) (h : 0 ≤ q) : 0 ≤ roundHalfEven q := by
  have hf : (0 : ℤ) ≤ ⌊q⌋ := Int.le_floor.mpr (by exact_mod_cast h)
  unfold roundHalfEven
  dsimp only
  split
  · exact hf
  · split
    · omega
    · split <;> omega

theorem lookup_load_state_dict (tgt src : StateDict) (n : String) :
    List.lookup n (load_state_dict tgt src) =
      (List.lookup n tgt).map (fun p =>
        match List.lookup n src with
        | some q => if q.shape = p.shape then q else p
        | none => p) := by
  induction tgt with
  | nil => rfl
  | cons hd t ih =>
    obtain ⟨k, p⟩ := hd
    have hhead : load_state_dict ((k, p) :: t) src =
        (match List.lookup k src with
          | some q => if q.shape = p.shape then (k, q) else (k, p)
          | none => (k, p)) :: load_state_dict t src := by
      simp only [load_state_dict, List.map_cons]
    rw [hhead]
    by_cases hk : n = k
    · subst hk
      cases hsrc : List.lookup n src with
      | none => simp [List.lookup_cons, hsrc]
      | some q =>
        by_cases hsh : q.shape = p.shape <;>
          simp [List.lookup_cons, hsrc, hsh]
    · have hbeq : (n == k) = false := by
        simp [hk]
      cases hsrc : List.lookup k src with
      | none => simp [List.lookup_cons, hbeq, ih]
      | some q =>
        by_cases hsh : q.shape = p.shape <;>
          simp [List.lookup_cons, hbeq, hsh, ih]

/-! ### Claim theorems -/

/-- C1: For every observation set and every unlabeled sentinel value, the
partition computed at construction satisfies: the labeled index set
(indices whose raw label is value-unequal to the sentinel) and the
unlabeled index set (indices whose raw label is value-equal to the
sentinel) are disjoint and their union is the full index set `[0, N)`. -/
theorem partition_disjoint_exhaustive {α : Type} [DecidableEq α]
    (labels : List α) (c : α) (i : ℕ) :
    (i < labels.length ↔
      (i ∈ labeled_indices labels c ∨ i ∈ unlabeled_indices labels c))
    ∧ ¬ (i ∈ labeled_indices labels c ∧ i ∈ unlabeled_indices labels c) := by
  constructor
  · constructor
    · intro hi
      by_cases h : labels[i]? = some c
      · right
        simp only [unlabeled_indices, List.mem_filter, List.mem_range,
          decide_eq_true_eq]
        exact ⟨hi, h⟩
      · left
        simp only [labeled_indices, List.mem_filter, List.mem_range,
          decide_eq_true_eq]
        exact ⟨hi, h⟩
    · rintro (h | h) <;>
        simp only [labeled_indices, unlabeled_indices, List.mem_filter,
          List.mem_range, decide_eq_true_eq] at h <;>
        exact h.1
  · rintro ⟨h1, h2⟩
    simp only [labeled_indices, unlabeled_indices, List.mem_filter,
      List.mem_range, decide_eq_true_eq] at h1 h2
    exact h1.2 h2.2

/-- Witness for C1 at a concrete observation set. -/
theorem partition_disjoint_exhaustive_witness :
    ((0 < (["A", "u"] : List String).length ↔
      (0 ∈ labeled_indices ["A", "u"] "u" ∨ 0 ∈ unlabeled_indices ["A", "u"] "u"))
    ∧ ¬ (0 ∈ labeled_indices ["A", "u"] "u" ∧ 0 ∈ unlabeled_indices ["A", "u"] "u")) :=
  partition_disjoint_exhaustive ["A", "u"] "u" 0

/-- C2: If `train()` is called a second time after a first complete call
(the first call always leaves the base-trained flag true), the second call
does not execute phase 1: the base model parameters are unchanged by the
second call and the unsupervised trainer is not constructed or run, yet
phase 2 (semi-supervised fine-tuning) still executes. -/
theorem train_second_call_skips_phase1
    (f g f2 g2 : StateDict → StateDict) (s : SCANVIInstance) :
    (SCANVI_train f g s).state.is_trained_base = true
    ∧ (SCANVI_train f2 g2 (SCANVI_train f g s).state).state.base
        = (SCANVI_train f g s).state.base
    ∧ (SCANVI_train f2 g2 (SCANVI_train f g s).state).unsup_trainer_ran = false
    ∧ (SCANVI_train f2 g2 (SCANVI_train f g s).state).phase2_ran = true := by
  refine ⟨rfl, ?_, rfl, rfl⟩
  simp [SCANVI_train]

/-- C3: For every dataset size `n_obs ≥ 1`, when no override is given the
default unsupervised epoch count equals
`min(round((20000 / n_obs) * 400), 400)`; in particular it equals 400 for
`n_obs = 20000`, equals 80 for `n_obs = 100000`, and is always at most 400
and at least 0. -/
theorem unsupervised_epochs_spec :
    (∀ n : ℕ, 1 ≤ n →
      unsupervised_epochs n none
        = some (min (roundHalfEven ((20000 / (n : ℚ)) * 400)) 400))
    ∧ unsupervised_epochs 20000 none = some 400
    ∧ unsupervised_epochs 100000 none = some 80
    ∧ (∀ n : ℕ, ∀ e : ℤ, unsupervised_epochs n none = some e
        → 0 ≤ e ∧ e ≤ 400) := by
  refine ⟨?_, ?_, ?_, ?_⟩
  · intro n hn
    have hz : n ≠ 0 := by omega
    simp [unsupervised_epochs, hz]
  · norm_num [unsupervised_epochs, roundHalfEven]
  · norm_num [unsupervised_epochs, roundHalfEven]
  · intro n e he
    by_cases hz : n = 0
    · simp [unsupervised_epochs, hz] at he
    · simp only [unsupervised_epochs, hz, if_false, Option.some.injEq] at he
      subst he
      refine ⟨le_min ?_ (by norm_num), min_le_right _ _⟩
      exact roundHalfEven_nonneg _ (by positivity)

/-- Witness for C3 at concrete dataset sizes, reusing the theorem's own
concrete conjuncts to discharge the hypotheses. -/
theorem unsupervised_epochs_spec_witness :
    (unsupervised_epochs 40000 none
      = some (min (roundHalfEven ((20000 / (40000 : ℚ)) * 400)) 400))
    ∧ (0 ≤ (400 : ℤ) ∧ (400 : ℤ) ≤ 400) :=
  ⟨unsupervised_epochs_spec.1 40000 (by decide),
   unsupervised_epochs_spec.2.2.2 20000 400 unsupervised_epochs_spec.2.1⟩

/-- C4: For every non-negative unsupervised epoch count, when no override
is given the default semi-supervised epoch count equals
`min(10, max(2, round(unsupervised_epochs / 3)))`; it always lies in the
interval `[2, 10]`, and equals 3 when the unsupervised count is 9. -/
theorem semisupervised_epochs_spec :
    (∀ u : ℤ, 0 ≤ u →
      semisupervised_epochs u none
          = min 10 (max 2 (roundHalfEven ((u : ℚ) / 3)))
      ∧ 2 ≤ semisupervised_epochs u none
      ∧ semisupervised_epochs u none ≤ 10)
    ∧ semisupervised_epochs 9 none = 3 := by
  constructor
  · intro u _
    refine ⟨rfl, ?_, ?_⟩
    · exact le_min (by norm_num) (le_max_left _ _)
    · exact min_le_left _ _
  · norm_num [semisupervised_epochs, roundHalfEven]

/-- Witness for C4 at the concrete unsupervised count 9. -/
theorem semisupervised_epochs_spec_witness :
    semisupervised_epochs 9 none
        = min 10 (max 2 (roundHalfEven (((9 : ℤ) : ℚ) / 3)))
    ∧ 2 ≤ semisupervised_epochs 9 none
    ∧ semisupervised_epochs 9 none ≤ 10 :=
  semisupervised_epochs_spec.1 9 (by decide)

/-- C9: Computing the default unsupervised epoch count over an observation
set of zero observations fails (Python raises `ZeroDivisionError` at
`20000 / self.adata.shape[0]`; the spec's name for this failure is
`InvalidDatasetSize`). -/
theorem unsupervised_epochs_zero_obs : unsupervised_epochs 0 none = none := rfl

/-- C5: In hard mode, `predict` maps each predicted integer code to its raw
label through the mapping's inverse table and returns a sequence aligned
with the input order; for a dataset with labels `{"A","B"}` and predicted
codes `[0,1,0,1]` it returns `["A","B","A","B"]`; and for any predicted
code outside the mapping's domain it fails (Python raises `KeyError` from
the `_code_to_label` dict; the spec's name for this failure is
`CodeMappingError`). -/
theorem predict_hard_spec :
    predict_hard ["A", "B"] [0, 1, 0, 1] = some ["A", "B", "A", "B"]
    ∧ (∀ mapping : List String, ∀ pred : List ℕ, ∀ out : List String,
        predict_hard mapping pred = some out →
        out.length = pred.length
        ∧ ∀ i : ℕ, out[i]? = (pred[i]?.bind fun code => mapping[code]?))
    ∧ (∀ mapping : List String, ∀ pred : List ℕ, ∀ code : ℕ,
        code ∈ pred → mapping[code]? = none →
        predict_hard mapping pred = none) := by
  refine ⟨by decide, ?_, ?_⟩
  · intro mapping pred
    induction pred with
    | nil =>
      intro out h
      simp only [predict_hard, Option.some.injEq] at h
      subst h
      simp
    | cons p ps ih =>
      intro out h
      simp only [predict_hard] at h
      cases hm : mapping[p]? with
      | none => simp [hm] at h
      | some l =>
        cases hr : predict_hard mapping ps with
        | none => simp [hm, hr] at h
        | some rest =>
          simp only [hm, hr, Option.some.injEq] at h
          subst h
          obtain ⟨hlen, hidx⟩ := ih rest hr
          constructor
          · simp [hlen]
          · intro i
            cases i with
            | zero => simp [hm]
            | succ j => simpa using hidx j
  · intro mapping pred code hmem hnone
    induction pred with
    | nil => simp at hmem
    | cons p ps ih =>
      rcases List.mem_cons.mp hmem with h | h
      · subst h
        simp only [predict_hard, hnone]
      · have hps := ih h
        simp only [predict_hard, hps]
        cases mapping[p]? <;> rfl

/-- Witness for C5: an out-of-domain code makes hard-mode predict fail. -/
theorem predict_hard_spec_witness : predict_hard ["A", "B"] [0, 2] = none :=
  predict_hard_spec.2.2 ["A", "B"] [0, 2] 2 (by decide) (by decide)

/-- C6: the code at the failing input.  Soft-mode `predict` builds the
table with `index=adata.obs_names` — the full observation-name list — even
when `indices` selects a strict subset, so querying the subset `[0]` of a
2-observation dataset fails (pandas raises a shape-mismatch `ValueError`,
modelled as `none`), while the full query returns the table the claim
describes: columns are the mapping in code order and the probability rows
are passed through unchanged. -/
theorem predict_soft_subset_fails :
    predict_soft ["A", "B"] ["c0", "c1"] (fun _ => [1, 0]) (some [0]) = none
    ∧ predict_soft ["A", "B"] ["c0", "c1"] (fun _ => [1, 0]) none
        = some { columns := ["A", "B"]
                 index := ["c0", "c1"]
                 data := [[1, 0], [1, 0]] } := by
  constructor <;> decide

/-- C7: After the weight transplant, every target parameter whose name and
shape match a source parameter equals that source parameter; every
parameter whose name is absent from the source keeps its pre-transplant
value; and a name whose shapes mismatch also keeps its value — no mismatch
is an error (`load_state_dict` is total). -/
theorem load_state_dict_partial_match (tgt src : StateDict) (n : String) :
    (∀ p q : Param, List.lookup n tgt = some p → List.lookup n src = some q →
      q.shape = p.shape → List.lookup n (load_state_dict tgt src) = some q)
    ∧ (∀ p : Param, List.lookup n tgt = some p → List.lookup n src = none →
      List.lookup n (load_state_dict tgt src) = some p)
    ∧ (∀ p q : Param, List.lookup n tgt = some p → List.lookup n src = some q →
      ¬ q.shape = p.shape → List.lookup n (load_state_dict tgt src) = some p) := by
  refine ⟨?_, ?_, ?_⟩
  · intro p q ht hs hsh
    rw [lookup_load_state_dict, ht]
    simp [hs, hsh]
  · intro p ht hs
    rw [lookup_load_state_dict, ht]
    simp [hs]
  · intro p q ht hs hsh
    rw [lookup_load_state_dict, ht]
    simp [hs, hsh]

/-- Witness for C7 on concrete state dicts: a name/shape match is copied,
a target-only parameter keeps its value, and a shape mismatch keeps its
value without error. -/
theorem load_state_dict_partial_match_witness :
    List.lookup "w" (load_state_dict
        [("w", ⟨[2], [5, 7]⟩), ("c", ⟨[1], [9]⟩), ("b", ⟨[2], [4, 4]⟩)]
        [("w", ⟨[2], [1, 2]⟩), ("b", ⟨[3], [0, 0, 0]⟩)])
      = some ⟨[2], [1, 2]⟩
    ∧ List.lookup "c" (load_state_dict
        [("w", ⟨[2], [5, 7]⟩), ("c", ⟨[1], [9]⟩), ("b", ⟨[2], [4, 4]⟩)]
        [("w", ⟨[2], [1, 2]⟩), ("b", ⟨[3], [0, 0, 0]⟩)])
      = some ⟨[1], [9]⟩
    ∧ List.lookup "b" (load_state_dict
        [("w", ⟨[2], [5, 7]⟩), ("c", ⟨[1], [9]⟩), ("b", ⟨[2], [4, 4]⟩)]
        [("w", ⟨[2], [1, 2]⟩), ("b", ⟨[3], [0, 0, 0]⟩)])
      = some ⟨[2], [4, 4]⟩ :=
  ⟨(load_state_dict_partial_match _ _ "w").1 ⟨[2], [5, 7]⟩ ⟨[2], [1, 2]⟩
      (by decide) (by decide) (by decide),
   (load_state_dict_partial_match _ _ "c").2.1 ⟨[1], [9]⟩
      (by decide) (by decide),
   (load_state_dict_partial_match _ _ "b").2.2 ⟨[2], [4, 4]⟩ ⟨[3], [0, 0, 0]⟩
      (by decide) (by decide) (by decide)⟩

/-- C8: Constructing the system with a `pretrained_model` whose trained
flag is false fails at construction time with
`ValueError("pretrained model has not been trained")` (the spec's name for
it is `UntrainedPretrainedModelError`); `SCANVI_init` returns the error
instead of an instance, so no trainer is ever constructed and no training
begins. -/
theorem init_untrained_pretrained_fails (labels : List String) (c : String)
    (pm : SCVIModel) (fresh_base fresh_semi : StateDict)
    (mapping : List String) (h : pm.is_trained = false) :
    SCANVI_init labels c (some pm) fresh_base fresh_semi mapping
      = .error "pretrained model has not been trained" := by
  simp [SCANVI_init, h]

/-- Witness for C8 at a concrete untrained pretrained model. -/
theorem init_untrained_pretrained_fails_witness :
    SCANVI_init ["A", "u"] "u" (some ⟨false, []⟩) [] [] ["A", "u"]
      = .error "pretrained model has not been trained" :=
  init_untrained_pretrained_fails ["A", "u"] "u" ⟨false, []⟩ [] [] ["A", "u"] rfl

/-- C10: On every invocation of `train()` — in particular when phase 1 is
skipped because the base model is already marked trained — the partial
weight transplant from the base model into the semi-supervised model is
re-executed before phase 2, so any previously fine-tuned semi-supervised
parameter that matches a base-model parameter by name and shape is
overwritten with the base model's value at the start of the call. -/
theorem transplant_every_invocation
    (f g : StateDict → StateDict) (s : SCANVIInstance) :
    (SCANVI_train f g s).semi_after_transplant
        = load_state_dict s.semi (SCANVI_train f g s).state.base
    ∧ (s.is_trained_base = true →
        (SCANVI_train f g s).unsup_trainer_ran = false
        ∧ (SCANVI_train f g s).semi_after_transplant
            = load_state_dict s.semi s.base)
    ∧ (∀ n : String, ∀ p q : Param,
        List.lookup n s.semi = some p →
        List.lookup n (SCANVI_train f g s).state.base = some q →
        q.shape = p.shape →
        List.lookup n (SCANVI_train f g s).semi_after_transplant = some q) := by
  refine ⟨rfl, ?_, ?_⟩
  · intro h
    constructor <;> simp [SCANVI_train, h]
  · intro n p q hsemi hbase hsh
    have := (load_state_dict_partial_match s.semi
        (SCANVI_train f g s).state.base n).1 p q hsemi hbase hsh
    exact this

/-- Witness for C10: a fine-tuned semi-supervised parameter matching the
base model by name and shape is overwritten on a call that skips phase 1. -/
theorem transplant_every_invocation_witness :
    (SCANVI_train id id
        ⟨[("w", ⟨[1], [3]⟩)], [("w", ⟨[1], [9]⟩)], true, true, [], [], []⟩
      ).unsup_trainer_ran = false
    ∧ List.lookup "w" (SCANVI_train id id
        ⟨[("w", ⟨[1], [3]⟩)], [("w", ⟨[1], [9]⟩)], true, true, [], [], []⟩
      ).semi_after_transplant = some ⟨[1], [3]⟩ :=
  ⟨((transplant_every_invocation id id
      ⟨[("w", ⟨[1], [3]⟩)], [("w", ⟨[1], [9]⟩)], true, true, [], [], []⟩).2.1
      rfl).1,
   (transplant_every_invocation id id
      ⟨[("w", ⟨[1], [3]⟩)], [("w", ⟨[1], [9]⟩)], true, true, [], [], []⟩).2.2
      "w" ⟨[1], [9]⟩ ⟨[1], [3]⟩ (by decide) (by decide) (by decide)⟩

end Scanvi
